import Mathlib

/-!
Shallow embedding of the `ironx` and `ironx_db` crates.

Rust `async fn` methods in this layer are single run-to-completion calls
returning `Result<S, F>`; they are embedded as pure Lean functions into
`Except F S`.  References (`&T`) carry no mutation in this code and are
embedded as plain values.  Trait implementations with associated types are
embedded as explicitly parameterised structures of functions: an
`ApplicationImpl App Config Error Env Ctx` is an implementation of
`Application` for the type `App` with the given associated types, and
similarly for `CommandImpl`, `QueryImpl` and `ResourceImpl`.
-/

/-- Embeds `trait Application` (src/ironx/src/lib.rs, mod application):
the associated types become parameters, the required methods become
fields `init : Config -> Result<Self, Error>` and `env : &Self -> &Env`. -/
structure ApplicationImpl (App Config Error Env Ctx : Type) where
  init : Config → Except Error App
  env : App → Env

/-- Embeds `trait Command<App: Application>` (src/ironx/src/lib.rs,
mod command): `call(&self, ctx: &App::Ctx, env: &App::Env)
-> Result<Success, Failure>` for a command value of type `Cmd`. -/
structure CommandImpl (Ctx Env Success Failure Cmd : Type) where
  call : Cmd → Ctx → Env → Except Failure Success

/-- Embeds `trait Resource<T>` (src/ironx/src/lib.rs, mod resource):
`fn resource(&self) -> &T` for a container of type `S`. -/
structure ResourceImpl (S T : Type) where
  resource : S → T

/-- Embeds the blanket reflexive implementation
`impl<T: Stable> Resource<T> for T { fn resource(&self) -> &T { self } }`. -/
def ResourceImpl.reflexive (T : Type) : ResourceImpl T T where
  resource := fun s => s

/-- Embeds `struct BorrowedRuntime<'a, App>` (src/ironx/src/lib.rs,
mod runtime): holds `application: &'a App` and `context: &'a App::Ctx`. -/
structure BorrowedRuntime (App Ctx : Type) where
  application : App
  context : Ctx

/-- Embeds `BorrowedRuntime::new(application, context)`. -/
def BorrowedRuntime.new (application : App) (context : Ctx) :
    BorrowedRuntime App Ctx :=
  { application := application, context := context }

/-- Embeds `impl Runtime<App> for BorrowedRuntime`:
`run_command(&self, cmd) = cmd.call(self.context, self.application.env()).await`. -/
def BorrowedRuntime.run_command (A : ApplicationImpl App Config Error Env Ctx)
    (C : CommandImpl Ctx Env Success Failure Cmd)
    (self : BorrowedRuntime App Ctx) (cmd : Cmd) : Except Failure Success :=
  C.call cmd self.context (A.env self.application)

/-- Embeds `struct AppContainer<App>` (src/ironx/src/lib.rs,
mod app_container): holds `app: App` and `default_context: App::Ctx`. -/
structure AppContainer (App Ctx : Type) where
  app : App
  default_context : Ctx

/-- Embeds `struct AppContainerBuilder<App>`: holds `default_context`. -/
structure AppContainerBuilder (Ctx : Type) where
  default_context : Ctx

/-- Embeds `AppContainer::with_default_context(ctx)`. -/
def AppContainer.with_default_context (ctx : Ctx) : AppContainerBuilder Ctx :=
  { default_context := ctx }

/-- Embeds `AppContainer::with_context(&self, ctx)
= BorrowedRuntime::new(&self.app, ctx)`. -/
def AppContainer.with_context (self : AppContainer App Ctx) (ctx : Ctx) :
    BorrowedRuntime App Ctx :=
  BorrowedRuntime.new self.app ctx

/-- Embeds `impl Runtime<App> for AppContainer`:
`run_command(&self, cmd) = cmd.call(&self.default_context, self.app.env()).await`. -/
def AppContainer.run_command (A : ApplicationImpl App Config Error Env Ctx)
    (C : CommandImpl Ctx Env Success Failure Cmd)
    (self : AppContainer App Ctx) (cmd : Cmd) : Except Failure Success :=
  C.call cmd self.default_context (A.env self.app)

/-- Embeds `AppContainerBuilder::init(self, config)`:
`let app = App::init(config).await?; Ok(AppContainer { app,
default_context: self.default_context })` — the `?` operator returns the
`Err` variant verbatim. -/
def AppContainerBuilder.init (self : AppContainerBuilder Ctx)
    (A : ApplicationImpl App Config Error Env Ctx) (config : Config) :
    Except Error (AppContainer App Ctx) :=
  match A.init config with
  | .error e => .error e
  | .ok app => .ok { app := app, default_context := self.default_context }

/-- Embeds `trait Query<T: DatabaseResource>` (src/ironx_db/src/lib.rs,
mod datatabase): `call(&self, resource: &T) -> Result<Success, Failure>`
for a query value of type `Q`. -/
structure QueryImpl (T Success Failure Q : Type) where
  call : Q → T → Except Failure Success

/-- Embeds `struct Db<T: DatabaseResource, D: Resource<T>>(D, PhantomData<T>)`
(src/ironx_db/src/lib.rs, mod db): the phantom component is the type
parameter `T`, the stored component is the field `d`. -/
structure Db (T D : Type) where
  d : D

/-- Embeds `Db::new(resource) = Self(resource, PhantomData)`. -/
def Db.new (T : Type) (resource : D) : Db T D :=
  { d := resource }

/-- Embeds `impl Database<T> for Db`:
`query(&self, q) = q.call(self.0.resource()).await`. -/
def Db.query (R : ResourceImpl D T) (Q : QueryImpl T Success Failure Qt)
    (self : Db T D) (q : Qt) : Except Failure Success :=
  Q.call q (R.resource self.d)

/-! Signature-level reflection of the trait bounds on failure types.

`ErrorCompatible` is blanket-implemented for every type implementing
`std::error::Error`.  Which failure types used by the repository implement
`std::error::Error` is a closed nominal fact of the source: `std::fmt::Error`
and the `thiserror`-derived `GeetingsErr` do; the unit type `()` and the
other plain data types do not. -/

/-- The failure types that appear in the repository's Command and Query
implementations (and the surrounding plain types, for contrast). -/
inductive RustTy : Type
  | unit
  | string
  | fmtError
  | greetingsErr
deriving DecidableEq

/-- Whether a repository type implements `std::error::Error` (and hence,
by the blanket impl in src/ironx/src/lib.rs mod error_compatible,
`ErrorCompatible`). -/
def RustTy.implsStdError : RustTy → Bool
  | .fmtError => true
  | .greetingsErr => true
  | _ => false

/-- Signature of a `Command<App>` implementation as the trait declares it
(src/ironx/src/lib.rs lines 128-133): the associated `type Failure:
ErrorCompatible;` carries the `ErrorCompatible` bound, so every
implementation must supply evidence for its failure type. -/
structure CommandSig where
  failureTy : RustTy
  failureErrorCompatible : failureTy.implsStdError = true

/-- Signature of a `Query<T>` implementation as the trait declares it
(src/ironx_db/src/lib.rs lines 19-24): the associated `type Failure;`
carries no bound at all. -/
structure QuerySig where
  failureTy : RustTy

/-- The signature of `impl<App> Command<App> for GreetingsFrom`:
`type Failure = std::fmt::Error`, which implements `std::error::Error`. -/
def greetingsFromSig : CommandSig :=
  { failureTy := .fmtError, failureErrorCompatible := rfl }

/-- The signature of `impl Query<Registry> for FetchValue`
(src/ironx_db/src/lib.rs tests): `type Failure = ()`. -/
def fetchValueSig : QuerySig :=
  { failureTy := .unit }

/-! Concrete repository instances used by the test scenarios. -/

/-- Embeds `struct Host(String)` from the ironx tests. -/
structure Host where
  name : String

/-- Embeds `struct Vistor(String)` from the ironx tests. -/
structure Vistor where
  name : String

/-- Embeds `struct Greetings(Host)` from the ironx tests. -/
structure Greetings where
  host : Host

/-- Embeds `enum GeetingsErr {}` from the ironx tests: an empty error type. -/
inductive GeetingsErr : Type

/-- Embeds `struct std::fmt::Error`, a unit struct. -/
inductive FmtError : Type
  | mk

/-- Embeds `impl Application for Greetings`: `Config = String`,
`Error = GeetingsErr`, `Env = Host`, `Ctx = Vistor`;
`init(config) = Ok(Self(Host(config)))`; `env(&self) = &self.0`. -/
def greetingsApp : ApplicationImpl Greetings String GeetingsErr Host Vistor where
  init := fun config => .ok { host := { name := config } }
  env := fun self => self.host

/-- Embeds `struct GreetingsFrom { location: String }` from the ironx tests. -/
structure GreetingsFrom where
  location : String

/-- Embeds `impl<App> Command<App> for GreetingsFrom` where
`App::Ctx: Resource<Vistor>` and `App::Env: Resource<Host>`: the body
formats `"Hello {name}, welcome to {location} on behalf of {host}!"` into a
fresh `String`; `fmt::Write` for `String` is infallible, so the `?` never
returns early and the call yields `Ok(message)`. -/
def GreetingsFrom.command (RC : ResourceImpl Ctx Vistor)
    (RE : ResourceImpl Env Host) :
    CommandImpl Ctx Env String FmtError GreetingsFrom where
  call := fun self ctx env =>
    .ok ("Hello " ++ (RC.resource ctx).name ++ ", welcome to " ++
      self.location ++ " on behalf of " ++ (RE.resource env).name ++ "!")

/-- The `Command<Greetings>` instance of `GreetingsFrom`, obtained from the
generic impl through the reflexive `Resource` implementations on
`Vistor` and `Host`. -/
def greetingsFromCmd : CommandImpl Vistor Host String FmtError GreetingsFrom :=
  GreetingsFrom.command (ResourceImpl.reflexive Vistor) (ResourceImpl.reflexive Host)

/-- Embeds `struct Registry(HashMap<u8, u8>)` from the ironx_db tests; the
hash map is embedded as an association list with `List.lookup` as `get`. -/
structure Registry where
  map : List (Nat × Nat)

/-- Embeds `Registry::new(key, val) = Self(HashMap::from_iter([(key, val)]))`. -/
def Registry.new (key val : Nat) : Registry :=
  { map := [(key, val)] }

/-- Embeds `struct FetchValue(u8)` from the ironx_db tests. -/
structure FetchValue where
  key : Nat

/-- Embeds `impl Query<Registry> for FetchValue`: `Success = u8`,
`Failure = ()`; `call(&self, resource) =
resource.0.get(&self.0).copied().ok_or(())`. -/
def fetchValueQuery : QueryImpl Registry Nat Unit FetchValue where
  call := fun self resource =>
    match resource.map.lookup self.key with
    | some v => .ok v
    | none => .error ()

/-! Claim theorems. -/

/-- Claim C1: for both Runtime variants — `BorrowedRuntime` and the owning
`AppContainer` — and every application, command implementation, held state
and command value, `run_command cmd` returns exactly the Result of
`cmd.call ctx env`, where `ctx` is the runtime's held context and `env` is
the held application's `env()`; dispatch adds no retry, caching, or
transformation of the result. -/
theorem run_command_is_pure_forwarding
    (A : ApplicationImpl App Config Error Env Ctx)
    (C : CommandImpl Ctx Env Success Failure Cmd)
    (rt : BorrowedRuntime App Ctx) (ac : AppContainer App Ctx) (cmd : Cmd) :
    rt.run_command A C cmd = C.call cmd rt.context (A.env rt.application) ∧
    ac.run_command A C cmd = C.call cmd ac.default_context (A.env ac.app) :=
  ⟨rfl, rfl⟩

/-- Claim C2: a `BorrowedRuntime` built from an application and a context
produces, for `run_command` on any command value, a Result identical to
that of an owning `AppContainer` holding an equal application and an equal
default context. -/
theorem borrowed_owning_dispatch_equivalent
    (A : ApplicationImpl App Config Error Env Ctx)
    (C : CommandImpl Ctx Env Success Failure Cmd)
    (app : App) (ctx : Ctx) (cmd : Cmd) :
    (BorrowedRuntime.new app ctx).run_command A C cmd =
      (AppContainer.mk app ctx).run_command A C cmd :=
  rfl

/-- Claim C3: for an owning `AppContainer` with stored default context `d`
and a substituted context `c`, `with_context c` yields a dispatcher whose
`run_command` uses `c` (not `d`) as the context, while the container's own
stored state is untouched by the substitution, so `run_command` on the
container itself still uses `d` and the held application. -/
theorem with_context_substitutes_only_that_dispatch
    (A : ApplicationImpl App Config Error Env Ctx)
    (C : CommandImpl Ctx Env Success Failure Cmd)
    (ac : AppContainer App Ctx) (c : Ctx) (cmd : Cmd) :
    (ac.with_context c).run_command A C cmd = C.call cmd c (A.env ac.app) ∧
    ac.run_command A C cmd = C.call cmd ac.default_context (A.env ac.app) :=
  ⟨rfl, rfl⟩

/-- Claim C4: for every type `T` and value `v : T`, the reflexive blanket
`Resource` implementation resolves on `v` by total function application and
returns exactly `v` itself, the identity. -/
theorem resource_reflexive_is_identity (T : Type) (v : T) :
    (ResourceImpl.reflexive T).resource v = v :=
  rfl

/-- Claim C5: `with_default_context ctx |>.init config` returns the
application's error verbatim when `Application::init config` fails, with no
container produced, and on success returns a container storing exactly the
constructed application together with the given default context `ctx`. -/
theorem builder_init_propagates_verbatim
    (A : ApplicationImpl App Config Error Env Ctx) (ctx : Ctx) (config : Config) :
    (AppContainer.with_default_context ctx).init A config =
      match A.init config with
      | .error e => .error e
      | .ok app => .ok (AppContainer.mk app ctx) :=
  rfl

/-- Claim C6: for every resource value `d` of a type `D` with a
`Resource T` implementation and every query `q`, `(Db.new d).query q`
returns exactly the Result of `q.call (d.resource())`, with no other
effect on the wrapped resource. -/
theorem db_query_is_pure_forwarding
    (R : ResourceImpl D T) (Q : QueryImpl T Success Failure Qt)
    (d : D) (q : Qt) :
    (Db.new T d).query R Q q = Q.call q (R.resource d) :=
  rfl

/-- Claim C7 counterexample: the claim that every failure type of both the
Command and the Query contracts satisfies `ErrorCompatible` is false: the
repository's `FetchValue` query signature has failure type `()`, which does
not implement `std::error::Error`. -/
theorem not_all_failures_error_compatible :
    ¬ ((∀ c : CommandSig, c.failureTy.implsStdError = true) ∧
       (∀ q : QuerySig, q.failureTy.implsStdError = true)) := by
  intro h
  have hfetch := h.2 fetchValueSig
  simp [fetchValueSig, RustTy.implsStdError] at hfetch

/-- Claim C7 (amended): every `Command` implementation's Failure type is
required by the trait bound to satisfy `ErrorCompatible`, but the `Query`
trait imposes no bound on its Failure type: the repository's `FetchValue`
query uses `()` as Failure, which is not `ErrorCompatible`. -/
theorem command_failures_error_compatible_query_not :
    (∀ c : CommandSig, c.failureTy.implsStdError = true) ∧
    fetchValueSig.failureTy.implsStdError = false :=
  ⟨fun c => c.failureErrorCompatible, rfl⟩

/-- Claim C8: a `Db` wrapping the single-entry map sending key 11 to
value 42 answers the fetch query for key 11 with `Success 42` and the
fetch query for the absent key 99 with `Failure`. -/
theorem db_fetch_present_and_absent :
    (Db.new Registry (Registry.new 11 42)).query (ResourceImpl.reflexive Registry)
      fetchValueQuery (FetchValue.mk 11) = .ok 42 ∧
    (Db.new Registry (Registry.new 11 42)).query (ResourceImpl.reflexive Registry)
      fetchValueQuery (FetchValue.mk 99) = .error () := by
  constructor <;> rfl

/-- Claim C9: for the greetings application with environment host name
"Iron X" and default context visitor name "Alice", dispatching the greeting
command with location "Rustland" succeeds with exactly
"Hello Alice, welcome to Rustland on behalf of Iron X!". -/
theorem greetings_scenario_exact_message :
    (((AppContainer.with_default_context (Vistor.mk "Alice")).init
        greetingsApp "Iron X").map
      (fun ac => ac.run_command greetingsApp greetingsFromCmd
        (GreetingsFrom.mk "Rustland"))) =
    .ok (.ok "Hello Alice, welcome to Rustland on behalf of Iron X!") :=
  rfl

/-- Claim C10: `Command::call` is deterministic as a two-run property: any
two invocations of a command implementation's `call` with equal command
state, an equal context and an equal environment produce equal Results —
its only inputs are the supplied ctx/env and the command's stored fields. -/
theorem command_call_two_run_deterministic
    (C : CommandImpl Ctx Env Success Failure Cmd)
    (c c' : Cmd) (x x' : Ctx) (e e' : Env)
    (hc : c = c') (hx : x = x') (he : e = e') :
    C.call c x e = C.call c' x' e' := by
  subst hc; subst hx; subst he; rfl

/-- Claim C10 witness: the two-run property applied to the repository's
greeting command at concrete command state, context and environment. -/
theorem command_call_two_run_deterministic_witness :
    greetingsFromCmd.call (GreetingsFrom.mk "Rustland") (Vistor.mk "Alice")
        (Host.mk "Iron X") =
      greetingsFromCmd.call (GreetingsFrom.mk "Rustland") (Vistor.mk "Alice")
        (Host.mk "Iron X") :=
  command_call_two_run_deterministic greetingsFromCmd
    (GreetingsFrom.mk "Rustland") (GreetingsFrom.mk "Rustland")
    (Vistor.mk "Alice") (Vistor.mk "Alice")
    (Host.mk "Iron X") (Host.mk "Iron X") rfl rfl rfl
